import Mathlib

/-!
Verification of the score-indexed cache in `main.go` (package `main`,
`SortedSetCache`). The Go code talks to a remote Redis store; we embed it
shallowly: the remote store is a `Store` state (the sorted set as a
score-sorted association list, the primary key-value table as a function,
plus failure-injection flags standing for transport or server failures of
the individual store calls), and each cache operation is a pure function
returning its result, the new store state, and the ordered list of network
calls it issued.

Scores are `float64` in Go; every claim uses finite scores only, and the
code performs no arithmetic on scores (only comparisons and wire
round-trips), so we model scores as `ℚ`. `GetByScoreRange` formats its
`min`/`max` with `%f`, which is exact for the values appearing in the
claims; we model that conversion as the identity. A possibly-NaN score (the
`Set` argument) is `RScore`; the sorted set itself never holds NaN because
the store rejects it at insert time.
-/

/-- A Go `interface\x7b\x7d` payload as it appears in this program: either a
string, or some non-string value (tagged by a `Nat`, the tag being opaque).
`Set`'s `value` argument and a `redis.Z.Member` have this type in Go. -/
inductive Val where
  | str (s : String)
  | nonStr (t : Nat)
deriving DecidableEq, Repr

/-- A `float64` score argument: either NaN or a finite value (modelled as a
rational). Only `Set` can be handed a NaN; Redis rejects NaN scores on
`ZADD` ("value is not a valid float"), so stored scores are plain `ℚ`. -/
inductive RScore where
  | nan
  | num (q : ℚ)
deriving DecidableEq, Repr

/-- The error outcomes of the Go methods. The Go code wraps everything in
`fmt.Errorf` message strings; each constructor names one of those sites:
`notStringValue` = "キャッシュ値は文字列である必要があります" (main.go:55),
`zaddErr` = "キャッシュ追加エラー" (main.go:66),
`setErr` = "キャッシュセットエラー" (main.go:72),
`notFound` = "キャッシュにアイテムが存在しません" (main.go:118, the
`redis.Nil` case), `getErr` = "キャッシュ取得エラー" (main.go:120),
`zrangeErr` = "スコア範囲内アイテム取得エラー" (main.go:89). -/
inductive Err where
  | notStringValue
  | zaddErr
  | setErr
  | notFound (key : String)
  | getErr
  | zrangeErr
deriving DecidableEq, Repr

/-- One network call to the Redis store, in the order the Go code issues
them: `zadd` (`client.ZAdd`, main.go:64), `setkv` (`client.Set`,
main.go:70), `getkv` (`client.Get`, main.go:115), `zrange`
(`client.ZRangeByScoreWithScores`, main.go:87). -/
inductive Call where
  | zadd (member : String) (score : RScore)
  | setkv (key : String) (value : String)
  | getkv (key : String)
  | zrange (mn mx : ℚ) (offset count : ℤ)
deriving DecidableEq, Repr

/-- The item record returned by `GetByScoreRange` (Go `CacheItem`,
main.go:13-17). The `Value` field is `interface\x7b\x7d` in Go but always
holds the string returned by `Get`, so it is a `String` here. -/
structure CacheItem where
  key : String
  score : ℚ
  value : String
deriving DecidableEq, Repr

/-- Ordering on members used by the sorted set for equal scores
(lexicographic on the member string, per Redis). Real Redis members are
always strings; `nonStr` members exist only because the Go type is
`interface\x7b\x7d`, and their relative order is an arbitrary modelling
choice (strings sort before non-strings, non-strings by tag). -/
def memberLe (a b : Val) : Bool :=
  match a, b with
  | .str s, .str t => decide (s ≤ t)
  | .str _, .nonStr _ => true
  | .nonStr _, .str _ => false
  | .nonStr s, .nonStr t => decide (s ≤ t)

/-- Sorted-set ordering: ascending by score, ties broken by member string
ascending (Redis sorted-set semantics). -/
def zLe (a b : Val × ℚ) : Bool :=
  decide (a.2 < b.2) || (decide (a.2 = b.2) && memberLe a.1 b.1)

/-- Insert an element into a list sorted by `zLe`, keeping it sorted. -/
def insertSorted (p : Val × ℚ) : List (Val × ℚ) → List (Val × ℚ)
  | [] => [p]
  | q :: rest => if zLe p q then p :: q :: rest else q :: insertSorted p rest

/-- Redis `ZADD` upsert on the sorted-set contents: remove any existing
entry for the member, then insert `(member, score)` at its sorted position
(re-adding a member moves it, it does not duplicate). -/
def zsetInsert (l : List (Val × ℚ)) (m : Val) (s : ℚ) : List (Val × ℚ) :=
  insertSorted (m, s) (l.filter (fun p => p.1 ≠ m))

/-- The remote store as seen through one `SortedSetCache` connection:
`zset` is the contents of the sorted set at `c.setKey` (kept sorted by
`zLe`); `kv` is the primary key-value table (TTL expiry is not modelled:
every claim is about behavior before any TTL elapses, and an expired key
simply reads as `none`); the remaining fields inject remote failures:
`getFails k` makes `GET k` fail with a transport error (as opposed to the
`redis.Nil` miss when `kv k = none`), `zaddFails` / `setFails` /
`zrangeFails` make the corresponding store call fail. -/
structure Store where
  zset : List (Val × ℚ)
  kv : String → Option String
  getFails : String → Bool
  zaddFails : Bool
  setFails : Bool
  zrangeFails : Bool

/-- A fresh store: empty sorted set, empty table, no injected failures. -/
def emptyStore : Store where
  zset := []
  kv := fun _ => none
  getFails := fun _ => false
  zaddFails := false
  setFails := false
  zrangeFails := false

/-- Embedding of `(c *SortedSetCache) Set(key, value, score)`
(main.go:52-76). Faithful to the source, including line 61: the sorted-set
member inserted is `strValue` (the VALUE string), not `key`. Steps: (1) the
string type assertion on `value` (lines 53-56, no network call on failure);
(2) `ZAdd` (lines 59-67) — one network call; it fails on an injected
transport failure or on a NaN score, which Redis rejects server-side;
(3) `client.Set(key, strValue, expiration)` (lines 70-73) — one network
call writing the primary table. Returns (result, new store, calls made). -/
def setOp (st : Store) (key : String) (value : Val) (score : RScore) :
    Except Err Unit × Store × List Call :=
  match value with
  | .nonStr _ => (.error .notStringValue, st, [])
  | .str strValue =>
    if st.zaddFails then
      (.error .zaddErr, st, [.zadd strValue score])
    else
      match score with
      | .nan => (.error .zaddErr, st, [.zadd strValue score])
      | .num q =>
        let st1 : Store := { st with zset := zsetInsert st.zset (Val.str strValue) q }
        if st.setFails then
          (.error .setErr, st1, [.zadd strValue score, .setkv key strValue])
        else
          (.ok (), { st1 with kv := fun k => if k = key then some strValue else st.kv k },
            [.zadd strValue score, .setkv key strValue])

/-- Embedding of `(c *SortedSetCache) Get(key)` (main.go:114-123): one
`GET` network call; a transport failure maps to `getErr`, the `redis.Nil`
miss to `notFound`, otherwise the stored string is returned. Read-only on
the store, so returns only (result, calls). -/
def getOp (st : Store) (key : String) : Except Err String × List Call :=
  if st.getFails key then
    (.error .getErr, [.getkv key])
  else
    match st.kv key with
    | none => (.error (.notFound key), [.getkv key])
    | some v => (.ok v, [.getkv key])

/-- Redis `LIMIT offset count` window semantics as used by
`ZRANGEBYSCORE`: a negative offset yields nothing, a negative count means
"all elements from offset", count `0` yields nothing. -/
def limitWindow (offset count : ℤ) (l : List (Val × ℚ)) : List (Val × ℚ) :=
  if offset < 0 then []
  else
    let rest := l.drop offset.toNat
    if count < 0 then rest else rest.take count.toNat

/-- The `(member, score)` list the `ZRANGEBYSCORE ... WITHSCORES LIMIT`
call returns when it succeeds: members with `mn ≤ score ≤ mx` (both ends
inclusive), in sorted-set order, windowed by `offset`/`count`. The store
keeps `zset` sorted, so filtering preserves the order. -/
def zrangeList (st : Store) (mn mx : ℚ) (offset count : ℤ) : List (Val × ℚ) :=
  limitWindow offset count (st.zset.filter (fun p => decide (mn ≤ p.2) && decide (p.2 ≤ mx)))

/-- Outcome of the `ZRangeByScoreWithScores` network call (main.go:87),
with an injected failure when `zrangeFails` is set. -/
def zrangeOutcome (st : Store) (mn mx : ℚ) (offset count : ℤ) :
    Except Err (List (Val × ℚ)) :=
  if st.zrangeFails then .error .zrangeErr
  else .ok (zrangeList st mn mx offset count)

/-- The member-processing loop of `GetByScoreRange` (main.go:93-110): for
each `(member, score)`, the `z.Member.(string)` type assertion (lines
94-97, `continue` on failure, no network call), then `c.Get(member)` (line
99, one `GET` call, `continue` on any error), and on success the item is
appended. Returns (items, calls made). -/
def rangeLoop (st : Store) : List (Val × ℚ) → List CacheItem × List Call
  | [] => ([], [])
  | (m, s) :: rest =>
    match m with
    | .nonStr _ => rangeLoop st rest
    | .str key =>
      let g := getOp st key
      let r := rangeLoop st rest
      match g.1 with
      | .error _ => (r.1, g.2 ++ r.2)
      | .ok v => ({ key := key, score := s, value := v } :: r.1, g.2 ++ r.2)

/-- Embedding of `(c *SortedSetCache) GetByScoreRange(min, max, offset,
count)` (main.go:79-112): the range-scan call, then the reconciliation
loop. On a range-scan failure the Go code returns `(nil, err)` before any
`GET`; this is the `.error` branch. Read-only on the store. -/
def getByScoreRange (st : Store) (mn mx : ℚ) (offset count : ℤ) :
    Except Err (List CacheItem) × List Call :=
  match zrangeOutcome st mn mx offset count with
  | .error e => (.error e, [.zrange mn mx offset count])
  | .ok zs =>
    let r := rangeLoop st zs
    (.ok r.1, .zrange mn mx offset count :: r.2)

/-- The per-member reconciliation outcome: `some item` when the member is a
string whose primary-table lookup succeeds, `none` when the member is not a
string or the lookup fails (miss or transport error). Used to characterize
the loop as a filterMap. -/
def lookupMember (st : Store) (p : Val × ℚ) : Option CacheItem :=
  match p.1 with
  | .nonStr _ => none
  | .str k =>
    match (getOp st k).1 with
    | .error _ => none
    | .ok v => some { key := k, score := p.2, value := v }

/-- The store state after the three `cache.Set` calls of `main`
(main.go:139-152) against a fresh store. -/
def demoStore : Store :=
  (setOp (setOp (setOp emptyStore
      "item1" (Val.str "Value for item 1") (RScore.num 100)).2.1
      "item2" (Val.str "Value for item 2") (RScore.num 200)).2.1
      "item3" (Val.str "Value for item 3") (RScore.num 150)).2.1

/-- The store after `Set("k1", "v1", 1)` and `Set("k2", "v2", 2)` on a
fresh store: two entries with distinct scores and values distinct from
their keys. -/
def twoWriteStore : Store :=
  (setOp (setOp emptyStore "k1" (Val.str "v1") (RScore.num 1)).2.1
      "k2" (Val.str "v2") (RScore.num 2)).2.1

/-! ### Helper lemmas (shared) -/

/-- The items produced by the reconciliation loop are exactly the
per-member lookup successes, in order: every failed lookup is dropped and
the loop never aborts. -/
theorem rangeLoop_fst (st : Store) (l : List (Val × ℚ)) :
    (rangeLoop st l).1 = l.filterMap (lookupMember st) := by
  induction l with
  | nil => rfl
  | cons p rest ih =>
    obtain ⟨m, s⟩ := p
    cases m with
    | nonStr t => simpa [rangeLoop, lookupMember] using ih
    | str k =>
      simp only [rangeLoop, lookupMember, List.filterMap_cons]
      cases h : (getOp st k).1 <;> simp [h, ih]

/-! ### Claims -/

/-- C1: after a fresh cache writes ("item1", "Value for item 1", 100),
("item2", "Value for item 2", 200), ("item3", "Value for item 3", 150),
the claim says GetByScoreRange(120, 250, 0, 10) returns exactly
[("item3", 150, "Value for item 3"), ("item2", 200, "Value for item 2")].
The code instead returns the empty list: Set inserts the VALUE string as
the sorted-set member (main.go:61), so the loop looks up "Value for item 3"
and "Value for item 2" in the primary table, both miss, and both entries
are dropped. -/
theorem c1_demo_range_query_returns_no_items :
    (getByScoreRange demoStore 120 250 0 10).1 = .ok ([] : List CacheItem) := rfl

/-- C2: the claim says the member inserted into the ordered index equals
the primary-table key. Evaluating Set("item1", "Value for item 1", 100) on
a fresh store shows the index holds the member "Value for item 1" — the
value string — and does not hold "item1", the key Set was called with. -/
theorem c2_index_member_is_value_not_key :
    (setOp emptyStore "item1" (Val.str "Value for item 1") (RScore.num 100)).2.1.zset
      = [(Val.str "Value for item 1", 100)] ∧
    (Val.str "item1", (100 : ℚ)) ∉
      (setOp emptyStore "item1" (Val.str "Value for item 1") (RScore.num 100)).2.1.zset :=
  ⟨rfl, by decide⟩

/-- C3: a successful Set(key, value, score) with a string value, followed
immediately by Get(key) with the store reachable (no injected transport
failure on that key), returns the value unchanged. -/
theorem c3_set_get_round_trip (st : Store) (k sv : String) (sc : RScore)
    (hset : (setOp st k (Val.str sv) sc).1 = .ok ())
    (hnet : st.getFails k = false) :
    (getOp (setOp st k (Val.str sv) sc).2.1 k).1 = .ok sv := by
  unfold setOp at hset ⊢
  cases hz : st.zaddFails with
  | true => simp [hz] at hset
  | false =>
    cases sc with
    | nan => simp [hz] at hset
    | num q =>
      cases hs : st.setFails with
      | true => simp [hz, hs] at hset
      | false => simp [getOp, hz, hs, hnet]

/-- Witness for C3 at a concrete input: Set then Get on a fresh store
returns the written value. -/
theorem c3_set_get_round_trip_witness :
    (getOp (setOp emptyStore "item1" (Val.str "Value for item 1")
        (RScore.num 100)).2.1 "item1").1 = .ok "Value for item 1" :=
  c3_set_get_round_trip emptyStore "item1" "Value for item 1" (RScore.num 100) rfl rfl

/-- C4: the claim says entries written with distinct scores come back from
GetByScoreRange in ascending score order (equal scores ordered by key).
After Set("k1", "v1", 1) and Set("k2", "v2", 2) — distinct scores, both in
range — GetByScoreRange(1, 2, 0, 10) returns no entries at all, because
the index members are the value strings "v1"/"v2", which are absent from
the primary table (whose keys are "k1"/"k2"), so every entry is dropped. -/
theorem c4_written_entries_not_returned :
    (getByScoreRange twoWriteStore 1 2 0 10).1 = .ok ([] : List CacheItem) := rfl

/-- C5: when the range scan itself succeeds, GetByScoreRange returns
success whose items are exactly the per-member lookup successes: every
member whose primary-table lookup fails (miss or transport error) is
silently dropped, and no per-member failure turns the call into an
error. -/
theorem c5_lookup_failures_dropped_query_succeeds (st : Store) (mn mx : ℚ)
    (off cnt : ℤ) :
    (getByScoreRange { st with zrangeFails := false } mn mx off cnt).1
      = .ok (List.filterMap (lookupMember st) (zrangeList st mn mx off cnt)) := by
  simp [getByScoreRange, zrangeOutcome, rangeLoop_fst]
  rfl

/-- C6: the sorted-set insert is issued before the primary-table write
(whenever the table write happens, the call trace is exactly the zadd
followed by the set), and when the index insert fails Set returns the
index-write error, issues no primary-table write, and leaves the store —
in particular the primary table — unmodified. -/
theorem c6_index_insert_failure_skips_table_write (st : Store) (k sv : String)
    (sc : RScore) :
    setOp { st with zaddFails := true } k (Val.str sv) sc
      = (.error Err.zaddErr, { st with zaddFails := true }, [Call.zadd sv sc]) ∧
    ((setOp st k (Val.str sv) sc).2.2 = [Call.zadd sv sc] ∨
     (setOp st k (Val.str sv) sc).2.2 = [Call.zadd sv sc, Call.setkv k sv]) := by
  refine ⟨rfl, ?_⟩
  unfold setOp
  cases hz : st.zaddFails with
  | true => simp
  | false =>
    cases sc with
    | nan => simp
    | num q => cases hs : st.setFails <;> simp [hs]

/-- C7 counterexample: the claim says Set(key, value, NaN) fails with a
validation error before any network call. On a fresh store, Set with a NaN
score issues the ZADD network call (the call trace is the nonempty list
holding that call), and the error surfaced is the index-write error
returned when the store rejects the NaN score — the code performs no
client-side score validation. -/
theorem c7_nan_reaches_network_counterexample :
    (setOp emptyStore "item1" (Val.str "v") RScore.nan).2.2
        = [Call.zadd "v" RScore.nan] ∧
    (setOp emptyStore "item1" (Val.str "v") RScore.nan).1 = .error Err.zaddErr ∧
    [Call.zadd "v" RScore.nan] ≠ ([] : List Call) :=
  ⟨rfl, rfl, by decide⟩

/-- C7 amended: Set(key, value, NaN) performs no client-side validation;
it issues the index-insert network call carrying the NaN score, the store
rejects it, Set surfaces the index-write error, and both the ordered index
and the primary table are left unmodified (the store state is returned
unchanged) with no primary-table write attempted. -/
theorem c7_nan_rejected_at_index_insert (st : Store) (k sv : String) :
    setOp st k (Val.str sv) RScore.nan
      = (.error Err.zaddErr, st, [Call.zadd sv RScore.nan]) := by
  unfold setOp
  cases hz : st.zaddFails <;> simp

/-- C8: Set with a non-string value returns the encoding error immediately:
no network call is issued (the call trace is empty) and the store — both
the ordered index and the primary table — is returned unmodified. -/
theorem c8_non_string_value_rejected_before_any_call (st : Store) (k : String)
    (t : Nat) (sc : RScore) :
    setOp st k (Val.nonStr t) sc = (.error Err.notStringValue, st, []) := rfl

/-- C9: a range-scan member whose payload is not a string is transparent to
the reconciliation loop of GetByScoreRange: splicing it out of the member
list changes neither the items produced nor the network calls issued — it
yields no item, no error, no primary-table lookup, and the remaining
members are processed exactly as before. -/
theorem c9_non_string_member_skipped (st : Store) (l1 l2 : List (Val × ℚ))
    (t : Nat) (q : ℚ) :
    rangeLoop st (l1 ++ (Val.nonStr t, q) :: l2) = rangeLoop st (l1 ++ l2) := by
  induction l1 with
  | nil => rfl
  | cons p rest ih =>
    obtain ⟨m, s⟩ := p
    cases m with
    | nonStr u => simpa [rangeLoop] using ih
    | str k => simp [rangeLoop, ih]

/-- C10: when the underlying range scan fails, GetByScoreRange returns the
range-scan error with no items, and the only network call issued is the
range scan itself — no primary-table lookup is performed. -/
theorem c10_range_scan_failure_aborts_with_error (st : Store) (mn mx : ℚ)
    (off cnt : ℤ) :
    getByScoreRange { st with zrangeFails := true } mn mx off cnt
      = (.error Err.zrangeErr, [Call.zrange mn mx off cnt]) := rfl
